import Mathlib

/-!
Shallow embedding of the voting-simulation pipeline of the repository
(src/core/simulation_logic.py and src/core/data_processing.py), together
with theorems settling the specification claims.

DataFrames are modelled as lists of records; the pandas index becomes an
explicit state-name field.  Side effects that the Python code performs
(the st.error UI message, the in-place uppercasing of a caller-owned
DataFrame index) are made explicit in the return types, so that frame
properties can be stated.  Machine floats of the source are modelled as
rationals; Python division, which raises ZeroDivisionError on a zero
denominator, is modelled in the Except monad.
-/

namespace VoteSim

/-! ### Ensemble Voter: src/core/simulation_logic.py, run_repeated_simulations -/

/-- Prefix test on character lists (used to model Python substring search). -/
def leadingChars : List Char → List Char → Bool
  | [], _ => true
  | _ :: _, [] => false
  | a :: as, b :: bs => a == b && leadingChars as bs

/-- Substring test on character lists: models the Python operator
needle in hay. -/
def hasSubstring : List Char → List Char → Bool
  | needle, [] => leadingChars needle []
  | needle, c :: t => leadingChars needle (c :: t) || hasSubstring needle t

/-- Models Python needle in hay for strings. -/
def str_contains (hay needle : String) : Bool :=
  hasSubstring needle.data hay.data

/-- Models Python str.strip(): remove leading and trailing whitespace. -/
def pyStrip (s : String) : String :=
  ⟨((s.data.dropWhile Char.isWhitespace).reverse.dropWhile Char.isWhitespace).reverse⟩

/-- Models Python s[:1]: the first character of s, or the empty string. -/
def firstChar (s : String) : String :=
  ⟨s.data.take 1⟩

/-- Models Python str.upper(). -/
def pyUpper (s : String) : String :=
  ⟨s.data.map Char.toUpper⟩

/-- Line 61 of simulation_logic.py: a raw oracle response is skipped when it
carries one of the two error sentinels as a substring. -/
def is_error_response (response : String) : Bool :=
  str_contains response "Error_API_Call" || str_contains response "Error_Client_Not_Initialized"

/-- Lines 58-65: collect the first character of each stripped non-error
response (response.strip()[:1]). -/
def raw_votes (responses : List String) : List String :=
  (responses.filter (fun r => !is_error_response r)).map (fun r => firstChar (pyStrip r))

/-- Line 68: keep only the valid votes "1" and "2".  The source converts them
to integers for np.bincount; we keep the one-character strings, and count
occurrences of "1" and "2" directly, which is what bincount computes. -/
def int_votes (responses : List String) : List String :=
  (raw_votes responses).filter (fun v => v == "1" || v == "2")

/-- Lines 50-90: run_repeated_simulations, as a function of the client
validity flag and of the sequence of raw responses returned by the
repetitions of get_voting_response. -/
def run_repeated_simulations (client_ok : Bool) (responses : List String) : String :=
  if !client_ok then "Error_Client_Not_Initialized"
  else
    let votes := int_votes responses
    if votes.isEmpty then "Undecided"
    else
      let count_1 := votes.count "1"
      let count_2 := votes.count "2"
      if count_1 > count_2 then "1"
      else if count_2 > count_1 then "2"
      else if count_1 == count_2 && count_1 > 0 then "1"
      else "Undecided"

/-- Modelled from the spec (section 4.3): the plurality reduction the spec
prescribes for the Ensemble Voter, as a function of the counts of valid
1-votes and 2-votes. -/
def specEnsembleDecision (c1 c2 : Nat) : String :=
  if c1 > c2 then "1"
  else if c2 > c1 then "2"
  else if c1 = c2 ∧ 0 < c1 then "1"
  else "Undecided"

/-- Helper: with a valid client the ensemble decision equals the spec's
count-based reduction of the valid samples. -/
theorem run_repeated_eq_spec (responses : List String) :
    run_repeated_simulations true responses =
      specEnsembleDecision ((int_votes responses).count "1") ((int_votes responses).count "2") := by
  unfold run_repeated_simulations specEnsembleDecision
  simp only [Bool.not_true, Bool.false_eq_true, if_false]
  rcases h : int_votes responses with _ | ⟨v, vs⟩
  · simp
  · simp only [List.isEmpty_cons, Bool.false_eq_true, if_false]
    have hv : v = "1" ∨ v = "2" := by
      have hmem : v ∈ int_votes responses := by rw [h]; exact List.mem_cons_self v vs
      unfold int_votes at hmem
      have := List.of_mem_filter hmem
      rcases Bool.or_eq_true _ _ |>.mp this with h1 | h2
      · exact Or.inl (by simpa using h1)
      · exact Or.inr (by simpa using h2)
    set c1 := (v :: vs).count "1" with hc1
    set c2 := (v :: vs).count "2" with hc2
    have hpos : 0 < c1 + c2 := by
      rcases hv with rfl | rfl
      · have : 0 < c1 := by
          rw [hc1]; exact List.count_pos_iff.mpr (List.mem_cons_self _ _)
        omega
      · have : 0 < c2 := by
          rw [hc2]; exact List.count_pos_iff.mpr (List.mem_cons_self _ _)
        omega
    by_cases h12 : c1 > c2
    · simp [h12]
    · by_cases h21 : c2 > c1
      · simp [h12, h21]
      · have heq : c1 = c2 := by omega
        have hc1pos : 0 < c1 := by omega
        simp [h12, h21, heq, hc1pos]

/-! ### Aggregator: src/core/data_processing.py, aggregate_results_by_state -/

/-- One input record, the (STATE, Vote_Party) projection of a row of the
profiles DataFrame. -/
structure VoteRecord where
  STATE : String
  Vote_Party : String
deriving DecidableEq, Repr

/-- The profiles DataFrame: the two column-presence flags model the
column check of line 77, the rows carry the two columns used. -/
structure ProfilesFrame where
  hasSTATE : Bool
  hasVote_Party : Bool
  rows : List VoteRecord
deriving DecidableEq, Repr

/-- One row of the aggregated per-state result (indexed by state name). -/
structure StateRow where
  state : String
  Democrat : Nat
  Republican : Nat
  Undecided : Nat
  Winner_simulated : String
deriving DecidableEq, Repr

/-- Result of aggregation: the optional st.error message of line 78 made
explicit, plus the returned rows. -/
structure AggOutput where
  errorMsg : Option String
  rows : List StateRow
deriving DecidableEq, Repr

/-- Lines 93-101: idxmax over the Democrat/Republican columns only (pandas
idxmax returns the first column on ties, hence Democrat when dem = rep),
then the tie condition overrides the result with "Tie". -/
def winner_of (dem rep : Nat) : String :=
  let winner_idx := if dem ≥ rep then "Democrat" else "Republican"
  if dem == rep then "Tie" else winner_idx

/-- The rows of up whose (already uppercased) STATE equals s. -/
def state_group (up : List VoteRecord) (s : String) : List VoteRecord :=
  up.filter (fun r => r.STATE == s)

/-- Line 86: per-state count of Democrat votes (value_counts, missing = 0). -/
def demCount (up : List VoteRecord) (s : String) : Nat :=
  (state_group up s).countP (fun r => r.Vote_Party == "Democrat")

/-- Line 86: per-state count of Republican votes. -/
def repCount (up : List VoteRecord) (s : String) : Nat :=
  (state_group up s).countP (fun r => r.Vote_Party == "Republican")

/-- Line 86: per-state count of Undecided votes. -/
def undCount (up : List VoteRecord) (s : String) : Nat :=
  (state_group up s).countP (fun r => r.Vote_Party == "Undecided")

/-- One output row of the aggregation for state s. -/
def agg_state_row (up : List VoteRecord) (s : String) : StateRow :=
  { state := s
    Democrat := demCount up s
    Republican := repCount up s
    Undecided := undCount up s
    Winner_simulated := winner_of (demCount up s) (repCount up s) }

/-- Lines 75-103: aggregate_results_by_state.  When a required column is
missing, the st.error message is emitted and an empty frame returned;
otherwise STATE is uppercased, votes are counted per state and party, and
the winner column is derived. -/
def aggregate_results_by_state (df : ProfilesFrame) : AggOutput :=
  if !(df.hasVote_Party && df.hasSTATE) then
    { errorMsg := some "Required columns for aggregation (STATE, Vote_Party) are missing."
      rows := [] }
  else
    let up := df.rows.map (fun r => { r with STATE := pyUpper r.STATE })
    let states := (up.map (fun r => r.STATE)).dedup
    { errorMsg := none, rows := states.map (agg_state_row up) }

/-- Case analysis on the derived winner: Tie exactly on equal counts,
otherwise the larger of the two parties, and never "Undecided". -/
theorem winner_of_spec (dem rep : Nat) :
    (winner_of dem rep = "Tie" ↔ dem = rep) ∧
    (dem > rep → winner_of dem rep = "Democrat") ∧
    (rep > dem → winner_of dem rep = "Republican") ∧
    winner_of dem rep ≠ "Undecided" := by
  unfold winner_of
  by_cases h : dem = rep
  · simp [h]
  · have hbe : (dem == rep) = false := by simpa using h
    simp only [hbe, Bool.false_eq_true, if_false]
    by_cases h2 : dem ≥ rep
    · rw [if_pos h2]
      exact ⟨⟨fun hc => absurd hc (by decide), fun hc => absurd hc h⟩,
        fun _ => rfl, fun hgt => absurd hgt (by omega), by decide⟩
    · rw [if_neg h2]
      exact ⟨⟨fun hc => absurd hc (by decide), fun hc => absurd hc h⟩,
        fun hlt => absurd hlt (by omega), fun _ => rfl, by decide⟩

/-- Every aggregated row is the row computed for some state of the
uppercased input. -/
theorem mem_aggregate_rows (df : ProfilesFrame) (row : StateRow)
    (h : row ∈ (aggregate_results_by_state df).rows) :
    ∃ s, row = agg_state_row (df.rows.map (fun r => { r with STATE := pyUpper r.STATE })) s := by
  unfold aggregate_results_by_state at h
  by_cases hc : (!(df.hasVote_Party && df.hasSTATE)) = true
  · rw [if_pos hc] at h
    simp at h
  · rw [if_neg hc] at h
    simp only [List.mem_map] at h
    obtain ⟨s, _, hrow⟩ := h
    exact ⟨s, hrow.symm⟩

/-- Counting the three party categories exhausts a record list whose
Vote_Party values all lie in the three categories. -/
theorem tripartite_count (l : List VoteRecord)
    (h : ∀ r ∈ l, r.Vote_Party = "Democrat" ∨ r.Vote_Party = "Republican" ∨
      r.Vote_Party = "Undecided") :
    l.countP (fun r => r.Vote_Party == "Democrat") +
      l.countP (fun r => r.Vote_Party == "Republican") +
      l.countP (fun r => r.Vote_Party == "Undecided") = l.length := by
  induction l with
  | nil => simp
  | cons a t ih =>
    simp only [List.countP_cons, List.length_cons]
    have ha := h a (List.mem_cons_self _ _)
    have ht := ih fun r hr => h r (List.mem_cons_of_mem _ hr)
    rcases ha with ha | ha | ha <;> rw [ha] <;> simp <;> omega

/-- C2: every row of the Aggregator's output has Winner_simulated = "Tie"
exactly when the Democrat and Republican counts are equal, otherwise the
party with the larger count, and Winner_simulated is never "Undecided". -/
theorem aggregate_winner_invariant (df : ProfilesFrame) (row : StateRow)
    (h : row ∈ (aggregate_results_by_state df).rows) :
    (row.Winner_simulated = "Tie" ↔ row.Democrat = row.Republican) ∧
    (row.Democrat > row.Republican → row.Winner_simulated = "Democrat") ∧
    (row.Republican > row.Democrat → row.Winner_simulated = "Republican") ∧
    row.Winner_simulated ≠ "Undecided" := by
  obtain ⟨s, rfl⟩ := mem_aggregate_rows df row h
  exact winner_of_spec _ _

/-- Witness for C2 on the aggregation of a single Ohio Democrat record. -/
theorem aggregate_winner_invariant_witness :
    ((("Democrat" : String) = "Tie" ↔ (1 : Nat) = 0) ∧
      ((1 : Nat) > 0 → ("Democrat" : String) = "Democrat") ∧
      ((0 : Nat) > 1 → ("Democrat" : String) = "Republican") ∧
      ("Democrat" : String) ≠ "Undecided") :=
  aggregate_winner_invariant ⟨true, true, [⟨"Ohio", "Democrat"⟩]⟩
    ⟨"OHIO", 1, 0, 0, "Democrat"⟩ (by decide)

/-- C7: when a required identifying column is absent, aggregation emits the
descriptive st.error message naming the missing columns and returns the
empty sentinel frame; the empty result is never produced silently. -/
theorem aggregate_missing_columns (df : ProfilesFrame)
    (h : df.hasSTATE = false ∨ df.hasVote_Party = false) :
    (aggregate_results_by_state df).errorMsg
        = some "Required columns for aggregation (STATE, Vote_Party) are missing." ∧
    (aggregate_results_by_state df).rows = [] := by
  unfold aggregate_results_by_state
  rcases h with h | h <;> simp [h]

/-- Witness for C7 on a frame lacking the STATE column. -/
theorem aggregate_missing_columns_witness :
    (aggregate_results_by_state ⟨false, true, [⟨"Ohio", "Democrat"⟩]⟩).errorMsg
        = some "Required columns for aggregation (STATE, Vote_Party) are missing." ∧
    (aggregate_results_by_state ⟨false, true, [⟨"Ohio", "Democrat"⟩]⟩).rows = [] :=
  aggregate_missing_columns ⟨false, true, [⟨"Ohio", "Democrat"⟩]⟩ (Or.inl rfl)

/-- C10: when every Vote_Party value lies in the three categories, each
output row's three counts sum to the number of input records whose
uppercased STATE is that row's state (count conservation). -/
theorem aggregate_count_conservation (df : ProfilesFrame)
    (hparties : ∀ r ∈ df.rows, r.Vote_Party = "Democrat" ∨ r.Vote_Party = "Republican" ∨
      r.Vote_Party = "Undecided")
    (row : StateRow) (h : row ∈ (aggregate_results_by_state df).rows) :
    row.Democrat + row.Republican + row.Undecided
      = df.rows.countP (fun r => pyUpper r.STATE == row.state) := by
  obtain ⟨s, rfl⟩ := mem_aggregate_rows df row h
  show demCount _ s + repCount _ s + undCount _ s = _
  unfold demCount repCount undCount
  set up := df.rows.map (fun r => { r with STATE := pyUpper r.STATE }) with hup
  have hmem : ∀ r ∈ state_group up s, r.Vote_Party = "Democrat" ∨
      r.Vote_Party = "Republican" ∨ r.Vote_Party = "Undecided" := by
    intro r hr
    have hr2 : r ∈ up := List.mem_of_mem_filter hr
    rw [hup] at hr2
    obtain ⟨r0, hr0, hre⟩ := List.mem_map.mp hr2
    have : r.Vote_Party = r0.Vote_Party := by rw [← hre]
    rw [this]
    exact hparties r0 hr0
  rw [tripartite_count _ hmem]
  show (up.filter (fun r => r.STATE == s)).length = _
  rw [← List.countP_eq_length_filter, hup, List.countP_map]
  rfl

/-- Witness for C10 on two Ohio records, one Democrat and one Undecided. -/
theorem aggregate_count_conservation_witness :
    (1 : Nat) + 0 + 1
      = List.countP (fun r => pyUpper r.STATE == "OHIO")
          [(⟨"Ohio", "Democrat"⟩ : VoteRecord), ⟨"OHIO", "Undecided"⟩] :=
  aggregate_count_conservation ⟨true, true, [⟨"Ohio", "Democrat"⟩, ⟨"OHIO", "Undecided"⟩]⟩
    (by decide) ⟨"OHIO", 1, 0, 1, "Democrat"⟩ (by decide)

/-- C1: for every sequence of raw oracle responses, run_repeated_simulations
discards invalid/error samples and reduces the surviving valid samples by
plurality: "1" when the 1-count exceeds the 2-count, "2" when the 2-count
exceeds the 1-count, "1" on a positive tie (fixed deterministic tie-break),
and "Undecided" when no valid sample remains. -/
theorem ensemble_plurality_reduction (responses : List String) :
    run_repeated_simulations true responses =
      specEnsembleDecision ((int_votes responses).count "1") ((int_votes responses).count "2") :=
  run_repeated_eq_spec responses

/-- C6: the ensemble decision is a function of the multiset of valid samples
only: two response sequences whose valid-vote lists are permutations of one
another produce the same decision. -/
theorem ensemble_decision_multiset (r1 r2 : List String)
    (h : (int_votes r1).Perm (int_votes r2)) :
    run_repeated_simulations true r1 = run_repeated_simulations true r2 := by
  rw [run_repeated_eq_spec, run_repeated_eq_spec, h.count_eq, h.count_eq]

/-- Witness for C6 at a concrete pair of reordered response sequences. -/
theorem ensemble_decision_multiset_witness :
    run_repeated_simulations true ["2", "1", "1"] = run_repeated_simulations true ["1", "2", "1"] :=
  ensemble_decision_multiset ["2", "1", "1"] ["1", "2", "1"] (by decide)

/-! ### Comparator: src/core/data_processing.py, compare_simulated_with_real -/

/-- One row of the historical results table (indexed by STATE). -/
structure RealRow where
  STATE : String
  Democrat_real_percent : ℚ
  Republican_real_percent : ℚ
  Winner_real : String
  Block : String
deriving DecidableEq, Repr

/-- One row of the merged comparison table.  The two percent columns are
Option-valued: a left merge leaves them NaN (here none) for simulated
states with no historical counterpart; only Winner_real and Block are
filled with sentinels. -/
structure ComparisonRow where
  state : String
  Democrat : Nat
  Republican : Nat
  Undecided : Nat
  Winner_simulated : String
  Democrat_real_percent : Option ℚ
  Republican_real_percent : Option ℚ
  Winner_real : String
  Block : String
  Correct_Prediction : Bool
deriving DecidableEq, Repr

/-- Line 111: simulated_results_df.index = simulated_results_df.index.str.upper(),
applied to the caller-owned simulated frame. -/
def upper_sim_rows (l : List StateRow) : List StateRow :=
  l.map (fun r => { r with state := pyUpper r.state })

/-- Line 112 and line 144: real_results_df.index = real_results_df.index.str.upper(). -/
def upper_real_rows (l : List RealRow) : List RealRow :=
  l.map (fun r => { r with STATE := pyUpper r.STATE })

/-- Lines 114-131: one merged row of the left join for simulated row s,
with the fillna sentinels and the Correct_Prediction column. -/
def compare_row (realUp : List RealRow) (s : StateRow) : ComparisonRow :=
  let found := realUp.find? (fun t => t.STATE == s.state)
  let winner_real := match found with
    | some t => t.Winner_real
    | none => "No Real Data"
  let block_val := match found with
    | some t => t.Block
    | none => "Unknown Block"
  { state := s.state
    Democrat := s.Democrat
    Republican := s.Republican
    Undecided := s.Undecided
    Winner_simulated := s.Winner_simulated
    Democrat_real_percent := found.map (fun t => t.Democrat_real_percent)
    Republican_real_percent := found.map (fun t => t.Republican_real_percent)
    Winner_real := winner_real
    Block := block_val
    Correct_Prediction := (s.Winner_simulated == winner_real) && (winner_real != "No Real Data") }

/-- Result of the comparison.  simulated_after and real_after are the states
of the two caller-owned argument frames after the call; the source reassigns
their indices in place before merging (lines 110-112). -/
structure CompareResult where
  comparison : List ComparisonRow
  simulated_after : List StateRow
  real_after : List RealRow
deriving DecidableEq, Repr

/-- Lines 108-135: compare_simulated_with_real. -/
def compare_simulated_with_real (simulated : List StateRow) (real : List RealRow) :
    CompareResult :=
  let simUp := upper_sim_rows simulated
  let realUp := upper_real_rows real
  { comparison := simUp.map (compare_row realUp)
    simulated_after := simUp
    real_after := realUp }

/-- A merged row with no historical match carries the two sentinels. -/
theorem compare_row_no_match (realUp : List RealRow) (s : StateRow)
    (h : realUp.find? (fun t => t.STATE == s.state) = none) :
    (compare_row realUp s).Winner_real = "No Real Data" ∧
    (compare_row realUp s).Block = "Unknown Block" := by
  unfold compare_row
  rw [h]
  exact ⟨rfl, rfl⟩

/-- The Correct_Prediction column is computed from the two winner columns of
the same row by the line-131 formula. -/
theorem compare_row_cp (realUp : List RealRow) (s : StateRow) :
    (compare_row realUp s).Correct_Prediction
      = (((compare_row realUp s).Winner_simulated == (compare_row realUp s).Winner_real)
          && ((compare_row realUp s).Winner_real != "No Real Data")) := rfl

/-- C4: the Comparator left-outer joins the simulated rows onto the
historical table on uppercased state name: the output has one row per
simulated row, every simulated state appears (uppercased), and a simulated
state with no historical counterpart gets Winner_real = "No Real Data" and
Block = "Unknown Block", never an absent value. -/
theorem compare_left_outer_join (simulated : List StateRow) (real : List RealRow) :
    ((compare_simulated_with_real simulated real).comparison.length = simulated.length) ∧
    (∀ s ∈ simulated, ∃ row ∈ (compare_simulated_with_real simulated real).comparison,
        row.state = pyUpper s.state) ∧
    (∀ row ∈ (compare_simulated_with_real simulated real).comparison,
      (∀ r ∈ real, pyUpper r.STATE ≠ row.state) →
        row.Winner_real = "No Real Data" ∧ row.Block = "Unknown Block") := by
  refine ⟨?_, ?_, ?_⟩
  · simp [compare_simulated_with_real, upper_sim_rows]
  · intro s hs
    refine ⟨compare_row (upper_real_rows real) { s with state := pyUpper s.state }, ?_, rfl⟩
    show _ ∈ (upper_sim_rows simulated).map _
    exact List.mem_map_of_mem _ (List.mem_map_of_mem _ hs)
  · intro row hrow hnone
    obtain ⟨s, _, hrow_eq⟩ :=
      List.mem_map.mp (show row ∈ (upper_sim_rows simulated).map
        (compare_row (upper_real_rows real)) from hrow)
    have hstate : row.state = s.state := by rw [← hrow_eq]; rfl
    have hfind : (upper_real_rows real).find? (fun t => t.STATE == s.state) = none := by
      rw [List.find?_eq_none]
      intro t ht
      obtain ⟨r0, hr0, hre⟩ := List.mem_map.mp ht
      have hts : t.STATE = pyUpper r0.STATE := by rw [← hre]
      simp only [beq_iff_eq, hts]
      rw [← hstate]
      exact hnone r0 hr0
    rw [← hrow_eq]
    exact compare_row_no_match _ _ hfind

/-- Witness for C4 at a one-row simulated table and an unrelated
historical table. -/
theorem compare_left_outer_join_witness :
    (((compare_simulated_with_real [⟨"Ohio", 2, 1, 0, "Democrat"⟩]
        [⟨"TEXAS", 46.5, 52.1, "Republican", "solidly Republican"⟩]).comparison.length = 1) ∧
      (∀ s ∈ [(⟨"Ohio", 2, 1, 0, "Democrat"⟩ : StateRow)],
        ∃ row ∈ (compare_simulated_with_real [⟨"Ohio", 2, 1, 0, "Democrat"⟩]
          [⟨"TEXAS", 46.5, 52.1, "Republican", "solidly Republican"⟩]).comparison,
          row.state = pyUpper s.state) ∧
      (∀ row ∈ (compare_simulated_with_real [⟨"Ohio", 2, 1, 0, "Democrat"⟩]
          [⟨"TEXAS", 46.5, 52.1, "Republican", "solidly Republican"⟩]).comparison,
        (∀ r ∈ [(⟨"TEXAS", 46.5, 52.1, "Republican", "solidly Republican"⟩ : RealRow)],
            pyUpper r.STATE ≠ row.state) →
          row.Winner_real = "No Real Data" ∧ row.Block = "Unknown Block")) :=
  compare_left_outer_join [⟨"Ohio", 2, 1, 0, "Democrat"⟩]
    [⟨"TEXAS", 46.5, 52.1, "Republican", "solidly Republican"⟩]

/-- C5: in every Comparator output row, Correct_Prediction holds exactly when
the simulated winner equals the real winner and the real winner is not the
"No Real Data" sentinel; a state lacking historical data is never counted
correct. -/
theorem compare_correct_prediction (simulated : List StateRow) (real : List RealRow)
    (row : ComparisonRow)
    (h : row ∈ (compare_simulated_with_real simulated real).comparison) :
    (row.Correct_Prediction = true ↔
      (row.Winner_simulated = row.Winner_real ∧ row.Winner_real ≠ "No Real Data")) ∧
    (row.Winner_real = "No Real Data" → row.Correct_Prediction = false) := by
  obtain ⟨s, _, hrow_eq⟩ :=
    List.mem_map.mp (show row ∈ (upper_sim_rows simulated).map
      (compare_row (upper_real_rows real)) from h)
  subst hrow_eq
  rw [compare_row_cp]
  constructor
  · simp [Bool.and_eq_true]
  · intro hnr
    rw [hnr]
    simp

/-- Witness for C5 on a simulated state absent from the historical table. -/
theorem compare_correct_prediction_witness :
    (((ComparisonRow.mk "OHIO" 2 1 0 "Democrat" none none "No Real Data" "Unknown Block"
        false).Correct_Prediction = true ↔
      ((ComparisonRow.mk "OHIO" 2 1 0 "Democrat" none none "No Real Data" "Unknown Block"
        false).Winner_simulated
          = (ComparisonRow.mk "OHIO" 2 1 0 "Democrat" none none "No Real Data" "Unknown Block"
            false).Winner_real ∧
        (ComparisonRow.mk "OHIO" 2 1 0 "Democrat" none none "No Real Data" "Unknown Block"
          false).Winner_real ≠ "No Real Data")) ∧
      ((ComparisonRow.mk "OHIO" 2 1 0 "Democrat" none none "No Real Data" "Unknown Block"
        false).Winner_real = "No Real Data" →
        (ComparisonRow.mk "OHIO" 2 1 0 "Democrat" none none "No Real Data" "Unknown Block"
          false).Correct_Prediction = false)) :=
  compare_correct_prediction [⟨"Ohio", 2, 1, 0, "Democrat"⟩] []
    ⟨"OHIO", 2, 1, 0, "Democrat", none, none, "No Real Data", "Unknown Block", false⟩
    (by decide)

/-! ### Blender: src/core/data_processing.py, adjust_simulated_results -/

/-- Python division: raises ZeroDivisionError on a zero denominator. -/
def pyDiv (a b : ℚ) : Except String ℚ :=
  if b = 0 then Except.error "ZeroDivisionError" else Except.ok (a / b)

/-- Bind on a successful Except value reduces to the continuation. -/
theorem ok_bind {ε α β : Type} (x : α) (f : α → Except ε β) :
    (Except.ok x >>= f : Except ε β) = f x := rfl

/-- Lines 150-154: the simulated vote shares of one state.  The division by
total_sim_votes is performed only under the total_sim_votes > 0 guard of the
conditional expression; otherwise the share is 0. -/
def sim_percentages (dem rep : Nat) : Except String (ℚ × ℚ) := do
  let total := dem + rep
  let dPct ← if total > 0 then do
      let q ← pyDiv (dem : ℚ) (total : ℚ)
      Except.ok (q * 100)
    else Except.ok 0
  let rPct ← if total > 0 then do
      let q ← pyDiv (rep : ℚ) (total : ℚ)
      Except.ok (q * 100)
    else Except.ok 0
  Except.ok (dPct, rPct)

/-- One row of the adjusted results table. -/
structure AdjRow where
  state : String
  Democrat_adj_pct : ℚ
  Republican_adj_pct : ℚ
  Winner_adjusted : String
deriving DecidableEq, Repr

/-- Lines 146-175: the per-state body of the adjustment loop.  When the state
has a historical row, the adjusted shares are the simulation_weight blend of
simulated and historical shares; otherwise the simulated shares are used
unweighted.  The winner is Democrat/Republican by comparison, overridden to
Tie on exact equality. -/
def adjust_state (realUp : List RealRow) (simulation_weight : ℚ) (s : StateRow) :
    Except String AdjRow := do
  let (sim_dem_pct, sim_rep_pct) ← sim_percentages s.Democrat s.Republican
  let (adj_dem_pct, adj_rep_pct) :=
    match realUp.find? (fun t => t.STATE == s.state) with
    | some t =>
        (simulation_weight * sim_dem_pct + (1 - simulation_weight) * t.Democrat_real_percent,
         simulation_weight * sim_rep_pct + (1 - simulation_weight) * t.Republican_real_percent)
    | none => (sim_dem_pct, sim_rep_pct)
  let winner0 := if adj_dem_pct > adj_rep_pct then "Democrat" else "Republican"
  let winner := if adj_dem_pct = adj_rep_pct then "Tie" else winner0
  Except.ok { state := s.state
              Democrat_adj_pct := adj_dem_pct
              Republican_adj_pct := adj_rep_pct
              Winner_adjusted := winner }

/-- The for-loop of lines 146-175 over the simulated states. -/
def adjust_loop (realUp : List RealRow) (w : ℚ) : List StateRow → Except String (List AdjRow)
  | [] => Except.ok []
  | s :: rest => do
      let row ← adjust_state realUp w s
      let rows ← adjust_loop realUp w rest
      Except.ok (row :: rows)

/-- Result of the adjustment.  As in CompareResult, simulated_after and
real_after are the post-call states of the two caller-owned frames, whose
indices lines 142-144 reassign in place. -/
structure AdjustResult where
  adjusted : Except String (List AdjRow)
  simulated_after : List StateRow
  real_after : List RealRow
deriving Repr

/-- Lines 138-178: adjust_simulated_results. -/
def adjust_simulated_results (simulated : List StateRow) (real : List RealRow)
    (simulation_weight : ℚ) : AdjustResult :=
  let simUp := upper_sim_rows simulated
  let realUp := upper_real_rows real
  { adjusted := adjust_loop realUp simulation_weight simUp
    simulated_after := simUp
    real_after := realUp }

/-- Closed form of the guarded share computation: it never raises. -/
theorem sim_percentages_eq (dem rep : Nat) :
    sim_percentages dem rep =
      if dem + rep > 0
      then Except.ok ((dem : ℚ) / ((dem : ℚ) + (rep : ℚ)) * 100,
             (rep : ℚ) / ((dem : ℚ) + (rep : ℚ)) * 100)
      else Except.ok (0, 0) := by
  unfold sim_percentages pyDiv
  by_cases h : dem + rep > 0
  · have hne : ((dem : ℚ) + (rep : ℚ)) ≠ 0 := by
      have h0 : ((dem + rep : Nat) : ℚ) ≠ 0 := by
        rw [Nat.cast_ne_zero]
        omega
      rwa [Nat.cast_add] at h0
    rw [if_pos h]
    simp only [Nat.cast_add, if_pos h, if_neg hne, ok_bind]
  · rw [if_neg h]
    simp only [if_neg h, ok_bind]

/-- The per-state adjustment never raises. -/
theorem adjust_state_total (realUp : List RealRow) (w : ℚ) (s : StateRow) :
    ∃ row, adjust_state realUp w s = Except.ok row := by
  unfold adjust_state
  rw [sim_percentages_eq]
  by_cases h : s.Democrat + s.Republican > 0
  · rw [if_pos h]
    exact ⟨_, rfl⟩
  · rw [if_neg h]
    exact ⟨_, rfl⟩

/-- The adjustment loop never raises. -/
theorem adjust_loop_total (realUp : List RealRow) (w : ℚ) (l : List StateRow) :
    ∃ rows, adjust_loop realUp w l = Except.ok rows := by
  induction l with
  | nil => exact ⟨[], rfl⟩
  | cons s rest ih =>
    obtain ⟨row, hrow⟩ := adjust_state_total realUp w s
    obtain ⟨rows, hrows⟩ := ih
    exact ⟨row :: rows, by simp only [adjust_loop, hrow, hrows, ok_bind]⟩

/-- A successful adjustment loop relates inputs and outputs elementwise. -/
theorem adjust_loop_forall₂ (realUp : List RealRow) (w : ℚ) :
    ∀ (l : List StateRow) (rows : List AdjRow), adjust_loop realUp w l = Except.ok rows →
      List.Forall₂ (fun s row => adjust_state realUp w s = Except.ok row) l rows := by
  intro l
  induction l with
  | nil =>
    intro rows h
    rw [adjust_loop] at h
    cases h
    exact List.Forall₂.nil
  | cons s rest ih =>
    intro rows h
    rw [adjust_loop] at h
    obtain ⟨row, hrow⟩ := adjust_state_total realUp w s
    obtain ⟨rest_rows, hrest⟩ := adjust_loop_total realUp w rest
    simp only [hrow, hrest, ok_bind] at h
    cases h
    exact List.Forall₂.cons hrow (ih _ hrest)

/-- The per-state adjustment with a historical match computes the blend
formula of lines 160-161. -/
theorem adjust_state_found (realUp : List RealRow) (w : ℚ) (s : StateRow) (t : RealRow)
    (dP rP : ℚ)
    (hf : realUp.find? (fun u => u.STATE == s.state) = some t)
    (hp : sim_percentages s.Democrat s.Republican = Except.ok (dP, rP)) :
    ∃ row, adjust_state realUp w s = Except.ok row ∧
      row.Democrat_adj_pct = w * dP + (1 - w) * t.Democrat_real_percent ∧
      row.Republican_adj_pct = w * rP + (1 - w) * t.Republican_real_percent := by
  unfold adjust_state
  rw [hp, ok_bind, hf]
  exact ⟨_, rfl, rfl, rfl⟩

/-- C3: for every simulated state with a historical entry and every weight w
in [0,1], the Blender computes the adjusted percentages as
w * sim_pct + (1 - w) * real_pct for both parties; with w = 1 the adjusted
percentages equal the simulated ones exactly, with w = 0 the historical
ones exactly. -/
theorem adjust_blend_formula (simulated : List StateRow) (real : List RealRow) (w : ℚ)
    (h0 : 0 ≤ w) (h1 : w ≤ 1)
    (rows : List AdjRow)
    (hok : (adjust_simulated_results simulated real w).adjusted = Except.ok rows)
    (i : Nat) (hi : i < simulated.length)
    (t : RealRow) (dP rP : ℚ)
    (hfound : (adjust_simulated_results simulated real w).real_after.find?
        (fun u => u.STATE == pyUpper ((simulated.get ⟨i, hi⟩).state)) = some t)
    (hp : sim_percentages (simulated.get ⟨i, hi⟩).Democrat (simulated.get ⟨i, hi⟩).Republican
        = Except.ok (dP, rP)) :
    ∃ hi2 : i < rows.length,
      (rows.get ⟨i, hi2⟩).Democrat_adj_pct = w * dP + (1 - w) * t.Democrat_real_percent ∧
      (rows.get ⟨i, hi2⟩).Republican_adj_pct = w * rP + (1 - w) * t.Republican_real_percent ∧
      (w = 1 → (rows.get ⟨i, hi2⟩).Democrat_adj_pct = dP ∧
        (rows.get ⟨i, hi2⟩).Republican_adj_pct = rP) ∧
      (w = 0 → (rows.get ⟨i, hi2⟩).Democrat_adj_pct = t.Democrat_real_percent ∧
        (rows.get ⟨i, hi2⟩).Republican_adj_pct = t.Republican_real_percent) := by
  have hloop : adjust_loop (upper_real_rows real) w (upper_sim_rows simulated)
      = Except.ok rows := hok
  have hf2 := adjust_loop_forall₂ (upper_real_rows real) w _ _ hloop
  have hiu : i < (upper_sim_rows simulated).length := by
    simpa [upper_sim_rows] using hi
  have hi2 : i < rows.length := by
    have := hf2.length_eq
    omega
  refine ⟨hi2, ?_⟩
  have hrel := hf2.get hiu hi2
  have hget : (upper_sim_rows simulated).get ⟨i, hiu⟩
      = { simulated.get ⟨i, hi⟩ with state := pyUpper (simulated.get ⟨i, hi⟩).state } := by
    simp [upper_sim_rows]
  rw [hget] at hrel
  obtain ⟨row, hrow, hd, hr⟩ := adjust_state_found (upper_real_rows real) w
    { simulated.get ⟨i, hi⟩ with state := pyUpper (simulated.get ⟨i, hi⟩).state } t dP rP
    hfound hp
  rw [hrow] at hrel
  have hre : row = rows.get ⟨i, hi2⟩ := by
    injection hrel
  rw [hre] at hd hr
  refine ⟨hd, hr, ?_, ?_⟩
  · intro hw
    subst hw
    rw [hd, hr]
    constructor <;> ring
  · intro hw
    subst hw
    rw [hd, hr]
    constructor <;> ring

/-- Witness for C3: one Ohio row, one historical row, weight one half. -/
theorem adjust_blend_formula_witness :
    ∃ h2 : 0 < [(⟨"OHIO", 70, 25, "Democrat"⟩ : AdjRow)].length,
      ([(⟨"OHIO", 70, 25, "Democrat"⟩ : AdjRow)].get ⟨0, h2⟩).Democrat_adj_pct
          = (1 / 2 : ℚ) * 100 + (1 - 1 / 2) * 40 ∧
      ([(⟨"OHIO", 70, 25, "Democrat"⟩ : AdjRow)].get ⟨0, h2⟩).Republican_adj_pct
          = (1 / 2 : ℚ) * 0 + (1 - 1 / 2) * 50 ∧
      ((1 / 2 : ℚ) = 1 →
        ([(⟨"OHIO", 70, 25, "Democrat"⟩ : AdjRow)].get ⟨0, h2⟩).Democrat_adj_pct = 100 ∧
        ([(⟨"OHIO", 70, 25, "Democrat"⟩ : AdjRow)].get ⟨0, h2⟩).Republican_adj_pct = 0) ∧
      ((1 / 2 : ℚ) = 0 →
        ([(⟨"OHIO", 70, 25, "Democrat"⟩ : AdjRow)].get ⟨0, h2⟩).Democrat_adj_pct = 40 ∧
        ([(⟨"OHIO", 70, 25, "Democrat"⟩ : AdjRow)].get ⟨0, h2⟩).Republican_adj_pct = 50) :=
  adjust_blend_formula [⟨"OHIO", 1, 0, 0, "Democrat"⟩]
    [⟨"OHIO", 40, 50, "Republican", "swing state"⟩] (1 / 2)
    (by norm_num) (by norm_num)
    [⟨"OHIO", 70, 25, "Democrat"⟩]
    (by norm_num [adjust_simulated_results, upper_sim_rows, upper_real_rows, adjust_loop,
      adjust_state, sim_percentages, pyDiv, ok_bind, List.find?,
      show pyUpper "OHIO" = "OHIO" from by decide])
    0 (by decide)
    ⟨"OHIO", 40, 50, "Republican", "swing state"⟩ 100 0
    (by decide)
    (by rw [sim_percentages_eq]; norm_num)

/-- C9: the Blender's share computation is division-safe: a state with zero
Democrat and zero Republican simulated votes yields simulated shares
(0, 0); the guarded computation never raises for any counts, and the whole
adjustment never raises. -/
theorem adjust_zero_vote_guard (simulated : List StateRow) (real : List RealRow) (w : ℚ)
    (s : StateRow) (hs : s ∈ simulated) (hd : s.Democrat = 0) (hr : s.Republican = 0) :
    sim_percentages s.Democrat s.Republican = Except.ok (0, 0) ∧
    (∀ dem rep : Nat, ∃ p, sim_percentages dem rep = Except.ok p) ∧
    (∃ rows, (adjust_simulated_results simulated real w).adjusted = Except.ok rows) := by
  refine ⟨?_, ?_, ?_⟩
  · rw [hd, hr, sim_percentages_eq]
    norm_num
  · intro dem rep
    rw [sim_percentages_eq]
    split <;> exact ⟨_, rfl⟩
  · exact adjust_loop_total (upper_real_rows real) w (upper_sim_rows simulated)

/-- Witness for C9 on a state with only Undecided votes. -/
theorem adjust_zero_vote_guard_witness :
    sim_percentages (StateRow.mk "TEXAS" 0 0 2 "Tie").Democrat
        (StateRow.mk "TEXAS" 0 0 2 "Tie").Republican = Except.ok (0, 0) ∧
    (∀ dem rep : Nat, ∃ p, sim_percentages dem rep = Except.ok p) ∧
    (∃ rows, (adjust_simulated_results [⟨"TEXAS", 0, 0, 2, "Tie"⟩] [] (4 / 5)).adjusted
        = Except.ok rows) :=
  adjust_zero_vote_guard [⟨"TEXAS", 0, 0, 2, "Tie"⟩] [] (4 / 5)
    ⟨"TEXAS", 0, 0, 2, "Tie"⟩ (by decide) rfl rfl

/-- C8 fails on the code: both the Comparator and the Blender reassign the
caller-owned frames' state keys to their uppercased form in place
(lines 110-112 and 142-144), so after a call on a frame keyed "ohio" the
caller's frame is keyed "OHIO": the inputs' original references are
mutated, contradicting the no-mutation requirement. -/
theorem compare_adjust_mutate_inputs :
    (compare_simulated_with_real [⟨"ohio", 3, 2, 0, "Democrat"⟩] []).simulated_after
        ≠ [⟨"ohio", 3, 2, 0, "Democrat"⟩] ∧
    (adjust_simulated_results [⟨"ohio", 3, 2, 0, "Democrat"⟩] [] 1).simulated_after
        ≠ [⟨"ohio", 3, 2, 0, "Democrat"⟩] := by
  constructor <;> decide

end VoteSim
